import Mathlib

/-!
Verification of the scroll-synchronization engine of the nmixx-lore
single-page image story viewer.  The development shallow-embeds the three
source variants of `App.tsx`:

* `src/src/App.tsx` — the optimized, load-gated variant (Lenis + fallback
  progress, load-gated reveal via IntersectionObserver, deferred
  image-load reconciliation, optimized proximity scaling);
* `src/unnamed/part_000` — the navigation variant (navigation lock
  `isNavigating`, `scrollToImage`, keyboard/button navigation,
  current-index tracking via a 50%-threshold IntersectionObserver,
  wide-profile scaling);
* `src/unnamed/part_001` — the header variant (header auto-hide on scroll,
  eager one-shot reveal with `unobserve`);
* `src/unnamed/part_002` — a lock-free navigation variant (manual
  smooth-scroll fallback `animateScroll` with `easeInOutCubic`).

Real numbers of the JavaScript source are modelled as rationals; DOM state
(class lists, data attributes) is modelled as explicit record fields; the
event-driven callbacks are modelled as step functions on explicit state.
-/

namespace NmixxLore

/-! ## Viewport metrics: scroll-progress computations

Three code paths in the source compute a scroll progress percentage.
-/

/-- Denominator of the Lenis-path progress computation:
`e.limit || 1` in `lenis.on('scroll', ...)` (App.tsx line 33, part_000
line 33, part_002 line 32).  JavaScript `||` replaces a zero (falsy)
limit by 1 and keeps any other value. -/
def lenisDenominator (limit : ℚ) : ℚ :=
  if limit = 0 then 1 else limit

/-- Lenis-path progress: `(e.scroll / (e.limit || 1)) * 100`. -/
def lenisProgress (scroll limit : ℚ) : ℚ :=
  scroll / lenisDenominator limit * 100

/-- `docHeight` of the non-Lenis fallback progress handler:
`document.documentElement.scrollHeight - window.innerHeight`
(App.tsx lines 47-48, part_001 lines 21-22, part_002 lines 46-47).
No floor is applied. -/
def fallbackDocHeight (scrollHeight innerHeight : ℚ) : ℚ :=
  scrollHeight - innerHeight

/-- Fallback-path progress: `(scrollTop / docHeight) * 100`
(App.tsx line 49, part_001 line 23, part_002 line 48). -/
def fallbackProgress (scrollTop scrollHeight innerHeight : ℚ) : ℚ :=
  scrollTop / fallbackDocHeight scrollHeight innerHeight * 100

/-- The progress formula as the specification states it (§4.1):
`offset / max(documentHeight - viewportHeight, 1) * 100`, denominator
floored at 1.  Stated from the spec's words, for comparison with the
code-derived computations above. -/
def computeProgressSpec (offset documentHeight viewportHeight : ℚ) : ℚ :=
  offset / max (documentHeight - viewportHeight) 1 * 100

/-! ## Proximity-to-center scale -/

/-- Scale computation of the optimized profile (`updateScaling`,
App.tsx lines 119-124): `maxDistance = innerHeight * 0.8`,
`normalizedDistance = min(distance / maxDistance, 1)`,
`scale = Math.max(0.85, 1 - normalizedDistance * 0.15)`. -/
def computeScaleOpt (innerHeight distance : ℚ) : ℚ :=
  let maxDistance := innerHeight * (8 / 10)
  let normalizedDistance := min (distance / maxDistance) 1
  max (85 / 100) (1 - normalizedDistance * (15 / 100))

/-- Scale computation of the wide profile (`updateScaling`,
part_000 lines 99-110 and part_002 lines 99-110):
`maxDistance = innerHeight`, `normalizedDistance = min(distance / maxDistance, 1)`,
`scale = 1 - normalizedDistance * 0.2`, applied as `Math.max(scale, 0.8)`. -/
def computeScaleWide (innerHeight distance : ℚ) : ℚ :=
  let maxDistance := innerHeight
  let normalizedDistance := min (distance / maxDistance) 1
  let scale := 1 - normalizedDistance * (2 / 10)
  max scale (8 / 10)

/-! ## Easing and the manual smooth-scroll fallback -/

/-- `easeInOutCubic` (part_000 lines 135-137, part_002 lines 88-90):
`t < 0.5 ? 4*t*t*t : 1 - Math.pow(-2*t + 2, 3) / 2`. -/
def easeInOutCubic (t : ℚ) : ℚ :=
  if t < 1 / 2 then 4 * t * t * t else 1 - (-2 * t + 2) ^ (3 : ℕ) / 2

/-- The clamped animation progress of `animateScroll`
(part_002 line 121): `Math.min(timeElapsed / duration, 1)`. -/
def animProgress (duration timeElapsed : ℚ) : ℚ :=
  min (timeElapsed / duration) 1

/-- The interpolated position written by `animateScroll`
(part_002 lines 124-127): `startPosition + distance * easeInOutCubic(progress)`
with `distance = targetPosition - startPosition`. -/
def animPosition (startPosition targetPosition duration timeElapsed : ℚ) : ℚ :=
  let distance := targetPosition - startPosition
  startPosition + distance * easeInOutCubic (animProgress duration timeElapsed)

/-- Whether `animateScroll` schedules another animation frame
(part_002 lines 129-131): it re-arms exactly when `progress < 1`. -/
def animSchedulesNext (duration timeElapsed : ℚ) : Bool :=
  animProgress duration timeElapsed < 1

/-! ## The panel sequence -/

/-- `const images = Array.from({ length: 29 }, (_, i) => i + 1)`
(identical line 5/6 of every variant): image numbers 1..29. -/
def images : List ℕ :=
  (List.range 29).map (· + 1)

/-- Number of panels. -/
def numImages : ℕ := 29

/-- `images[imageIndex]` as read by the observer callbacks; `0` stands for
the JavaScript `undefined` of an out-of-range access (no image number is
`0`, so `loadedImages.has(undefined)` is modelled faithfully as `false`). -/
def imageAt (imageIndex : ℕ) : ℕ :=
  images.getD imageIndex 0

/-! ## Navigation machine of `part_000`

State read and written by `scrollToImage`, the IntersectionObserver
callback and the completion timeout of the navigation variant.
-/

/-- Per-panel geometry read fresh inside `scrollToImage`
(`offsetTop`, `offsetHeight`) together with `window.innerHeight`. -/
structure Geometry where
  offsetTop : ℕ → ℚ
  offsetHeight : ℕ → ℚ
  innerHeight : ℚ

/-- The navigation-relevant component state of part_000:
`currentImageIndex` (line 11), `isNavigating` (line 12), and the last
scroll target commanded to the scroller (`none` before any command). -/
structure Nav000State where
  currentImageIndex : ℕ
  isNavigating : Bool
  scrollTarget : Option ℚ
deriving DecidableEq

/-- `document.querySelector('[data-index="i"]')` of part_000 line 146:
the render (lines 251-258) creates exactly the story items with
`data-index` 0..28, so the query resolves exactly for `0 ≤ i < 29`. -/
def resolveIndex (i : ℤ) : Option ℕ :=
  if 0 ≤ i ∧ i < (numImages : ℤ) then some i.toNat else none

/-- `centerPosition` of `scrollToImage` (part_000 lines 155-156):
`elementTop - windowHeight / 2 + elementHeight / 2`. -/
def centerPosition (g : Geometry) (idx : ℕ) : ℚ :=
  g.offsetTop idx - g.innerHeight / 2 + g.offsetHeight idx / 2

/-- `targetPosition` of `scrollToImage` (part_000 line 157):
`Math.max(0, centerPosition)`. -/
def targetPosition (g : Geometry) (idx : ℕ) : ℚ :=
  max 0 (centerPosition g idx)

/-- Absolute document coordinate of a panel's center, as `updateScaling`
computes it (part_000 line 96): `rect.top + pageYOffset + rect.height / 2`,
i.e. the element's document-absolute top plus half its height. -/
def elementCenter (g : Geometry) (idx : ℕ) : ℚ :=
  g.offsetTop idx + g.offsetHeight idx / 2

/-- Center of the viewport at scroll offset `offset`, as `updateScaling`
computes it (part_000 line 90): `window.innerHeight / 2 + pageYOffset`. -/
def viewportCenter (g : Geometry) (offset : ℚ) : ℚ :=
  g.innerHeight / 2 + offset

/-- `scrollToImage` (part_000 lines 139-201), Lenis path: reject when
`isNavigating`; set `isNavigating = true`; resolve the target element;
if found, compute `targetPosition = Math.max(0, elementTop -
windowHeight/2 + elementHeight/2)` and command the scroller to it;
if not found, reset `isNavigating = false`. -/
def scrollToImage (g : Geometry) (s : Nav000State) (i : ℤ) : Nav000State :=
  if s.isNavigating then s
  else
    let s1 : Nav000State := { s with isNavigating := true }
    match resolveIndex i with
    | some idx => { s1 with scrollTarget := some (targetPosition g idx) }
    | none => { s1 with isNavigating := false }

/-- The IntersectionObserver callback of part_000 (lines 65-76) as it
touches navigation state: an intersecting entry for panel `idx` sets
`currentImageIndex = idx` (threshold 0.5: the panel is at least half
visible). -/
def observerSetCurrent (s : Nav000State) (idx : ℕ) : Nav000State :=
  { s with currentImageIndex := idx }

/-- The completion timeout of the Lenis path
(`setTimeout(() => setIsNavigating(false), 1600)`, part_000 line 167)
and equally the end of the fallback `animateScroll`
(part_000 line 190): clears the navigation lock. -/
def navComplete (s : Nav000State) : Nav000State :=
  { s with isNavigating := false }

/-- Eventual completion of a started navigation animation: the scroll
settles at the commanded offset, which centers the target panel in the
viewport, so the 50%-threshold observer fires for it
(`observerSetCurrent`), and the safety timeout clears the lock
(`navComplete`). -/
def runNavToCompletion (s : Nav000State) (idx : ℕ) : Nav000State :=
  navComplete (observerSetCurrent s idx)

/-! ## Gallery machine of `src/src/App.tsx` (load-gated variant) -/

/-- Per-panel DOM state of the load-gated variant: the `visible` class
(`classList.add('visible')`) and the `data-pending-visible` attribute. -/
structure StoryItem where
  visible : Bool
  pendingVisible : Bool
deriving DecidableEq

/-- Component state of the load-gated variant: `loadedImages` (a set of
image numbers), the scroll progress, and the per-panel DOM state in
`data-index` order. -/
structure AppState where
  loadedImages : Finset ℕ
  scrollProgress : ℚ
  items : List StoryItem
deriving DecidableEq

/-- IntersectionObserver callback of App.tsx (lines 65-81) for one
intersecting entry with `data-index = idx`: if the panel's image is
loaded, add the `visible` class; otherwise set
`data-pending-visible = "true"`. -/
def intersectStep (s : AppState) (idx : ℕ) : AppState :=
  match s.items[idx]? with
  | none => s
  | some it =>
      if imageAt idx ∈ s.loadedImages then
        { s with items := s.items.set idx { it with visible := true } }
      else
        { s with items := s.items.set idx { it with pendingVisible := true } }

/-- One pending item of the deferred reconciliation inside
`handleImageLoad` (App.tsx lines 161-170): an item with
`data-pending-visible="true"` whose image number is in the new loaded
set gets the `visible` class and the pending attribute removed. -/
def promotePending (newSet : Finset ℕ) (idx : ℕ) (it : StoryItem) : StoryItem :=
  if it.pendingVisible ∧ imageAt idx ∈ newSet then
    { it with visible := true, pendingVisible := false }
  else it

/-- The deferred scan over all story items, carrying the running
`data-index`. -/
def promoteAll (newSet : Finset ℕ) : ℕ → List StoryItem → List StoryItem
  | _, [] => []
  | idx, it :: rest => promotePending newSet idx it :: promoteAll newSet (idx + 1) rest

/-- `handleImageLoad(imageNumber)` (App.tsx lines 152-175): insert the
image number into `loadedImages` and, in a deferred task, promote every
pending panel whose image is now in the set. -/
def handleImageLoad (s : AppState) (imageNumber : ℕ) : AppState :=
  let newSet := insert imageNumber s.loadedImages
  { s with loadedImages := newSet, items := promoteAll newSet 0 s.items }

/-- The fallback scroll handler of App.tsx (lines 44-51) as it touches
component state: recomputes the progress from the scroll sample. -/
def scrollStep (s : AppState) (scrollTop scrollHeight innerHeight : ℚ) : AppState :=
  { s with scrollProgress := fallbackProgress scrollTop scrollHeight innerHeight }

/-- Observer (re-)attachment of App.tsx (lines 84-91): when the effect
runs, the first story item is made visible immediately if its image is
already loaded. -/
def observeAttachStep (s : AppState) : AppState :=
  match s.items[0]? with
  | none => s
  | some it =>
      if imageAt 0 ∈ s.loadedImages then
        { s with items := s.items.set 0 { it with visible := true } }
      else s

/-- The input events the load-gated variant reacts to. -/
inductive AppEvent where
  | scroll (scrollTop scrollHeight innerHeight : ℚ)
  | intersect (idx : ℕ)
  | imageLoad (imageNumber : ℕ)
  | observeAttach
deriving DecidableEq

/-- One event of the load-gated variant. -/
def appStep (s : AppState) : AppEvent → AppState
  | .scroll st sh ih => scrollStep s st sh ih
  | .intersect idx => intersectStep s idx
  | .imageLoad n => handleImageLoad s n
  | .observeAttach => observeAttachStep s

/-- A whole input sequence of the load-gated variant. -/
def appRun (s : AppState) (es : List AppEvent) : AppState :=
  es.foldl appStep s

/-- Whether the panel at `data-index = idx` carries the `visible` class. -/
def visibleAt (s : AppState) (idx : ℕ) : Bool :=
  ((s.items[idx]?).map StoryItem.visible).getD false

/-- Whether the panel at `data-index = idx` carries
`data-pending-visible = "true"`. -/
def pendingAt (s : AppState) (idx : ℕ) : Bool :=
  ((s.items[idx]?).map StoryItem.pendingVisible).getD false

/-! ## Machine of `part_001` (header variant, eager one-shot reveal) -/

/-- Per-panel DOM state of the header variant: the `visible` class and
whether the observer still observes the panel (it calls
`observer.unobserve(target)` right after revealing, line 58). -/
structure Item001 where
  visible : Bool
  observed : Bool
deriving DecidableEq

/-- Component state of the header variant: `loadedImages`,
`scrollProgress`, `headerVisible` (line 10, initialised `true`), the
handler-local `lastScrollY` (line 14, initialised `0`), and the panels. -/
structure State001 where
  loadedImages : Finset ℕ
  scrollProgress : ℚ
  headerVisible : Bool
  lastScrollY : ℚ
  items : List Item001
deriving DecidableEq

/-- Initial header state of part_001:
`useState(true)` for `headerVisible` (line 10) and `let lastScrollY = 0`
(line 14). -/
def headerInit : State001 :=
  { loadedImages := ∅, scrollProgress := 0, headerVisible := true
    lastScrollY := 0, items := List.replicate numImages ⟨false, true⟩ }

/-- One processed scroll sample of part_001's `handleScroll`
(lines 17-40): recompute progress, then auto-hide logic —
`scrollTop > lastScrollY && scrollTop > 80` hides the header,
`scrollTop < lastScrollY || scrollTop <= 80` shows it, anything else
leaves it, and `lastScrollY` is updated to the sample. -/
def handleScroll001 (s : State001) (scrollTop scrollHeight innerHeight : ℚ) : State001 :=
  let progress := fallbackProgress scrollTop scrollHeight innerHeight
  let headerVisible :=
    if scrollTop > s.lastScrollY ∧ scrollTop > 80 then false
    else if scrollTop < s.lastScrollY ∨ scrollTop ≤ 80 then true
    else s.headerVisible
  { s with scrollProgress := progress, headerVisible := headerVisible
           lastScrollY := scrollTop }

/-- IntersectionObserver callback of part_001 (lines 53-61) for one
intersecting entry: observed panels get the `visible` class and are
unobserved (one-shot); entries for unobserved panels no longer arrive. -/
def intersect001 (s : State001) (idx : ℕ) : State001 :=
  match s.items[idx]? with
  | none => s
  | some it =>
      if it.observed then
        { s with items := s.items.set idx { visible := true, observed := false } }
      else s

/-- `handleImageLoad` of part_001 (lines 70-72): records the loaded
image number, nothing else. -/
def imageLoad001 (s : State001) (imageNumber : ℕ) : State001 :=
  { s with loadedImages := insert imageNumber s.loadedImages }

/-- The input events the header variant reacts to. -/
inductive Event001 where
  | scroll (scrollTop scrollHeight innerHeight : ℚ)
  | intersect (idx : ℕ)
  | imageLoad (imageNumber : ℕ)
deriving DecidableEq

/-- One event of the header variant. -/
def step001 (s : State001) : Event001 → State001
  | .scroll st sh ih => handleScroll001 s st sh ih
  | .intersect idx => intersect001 s idx
  | .imageLoad n => imageLoad001 s n

/-- A whole input sequence of the header variant. -/
def run001 (s : State001) (es : List Event001) : State001 :=
  es.foldl step001 s

/-- Whether panel `idx` of the header variant carries the `visible`
class. -/
def visibleAt001 (s : State001) (idx : ℕ) : Bool :=
  ((s.items[idx]?).map Item001.visible).getD false

/-- Geometry used to instantiate navigation theorems on concrete data:
panels of height 600 stacked 1000 apart in an 800-pixel viewport. -/
def sampleGeometry : Geometry :=
  { offsetTop := fun idx => (idx : ℚ) * 1000
    offsetHeight := fun _ => 600
    innerHeight := 800 }

/-! ## Theorems -/

/-- C2, counterexample: the claim asserts that every code path computing
progress divides by `max(documentHeight - viewportHeight, 1)`.  The
non-Lenis fallback path divides by the raw difference: at
`scrollHeight = innerHeight = 800` its denominator is `0`, not `1`, and
the computed progress differs from the spec formula at `scrollTop = 50`. -/
theorem fallback_progress_no_floor_cex :
    fallbackDocHeight 800 800 = 0 ∧
    fallbackProgress 50 800 800 ≠ computeProgressSpec 50 800 800 := by
  constructor
  · norm_num [fallbackDocHeight]
  · norm_num [fallbackProgress, fallbackDocHeight, computeProgressSpec]

/-- C2, amended: the Lenis code path replaces a zero `limit` by `1`, so
its denominator is never zero; the fallback path uses the raw difference
`scrollHeight - innerHeight` with no floor, and agrees with the spec
formula `offset / max(documentHeight - viewportHeight, 1) * 100` exactly
when that difference is at least `1`. -/
theorem progress_denominator_amended (limit scrollTop scrollHeight innerHeight : ℚ)
    (hfloor : 1 ≤ scrollHeight - innerHeight) :
    lenisDenominator limit ≠ 0 ∧
    fallbackProgress scrollTop scrollHeight innerHeight =
      computeProgressSpec scrollTop scrollHeight innerHeight := by
  constructor
  · unfold lenisDenominator
    split
    · exact one_ne_zero
    · assumption
  · unfold fallbackProgress fallbackDocHeight computeProgressSpec
    rw [max_eq_left hfloor]

/-- C2, witness for the amended theorem at `limit = 5`,
`scrollTop = 50`, `scrollHeight = 900`, `innerHeight = 100`. -/
theorem progress_denominator_amended_witness :
    lenisDenominator 5 ≠ 0 ∧ fallbackProgress 50 900 100 = computeProgressSpec 50 900 100 :=
  progress_denominator_amended 5 50 900 100 (by norm_num)

/-- C9: with fixed geometry `documentHeight > viewportHeight`, the
fallback progress computation is monotonically non-decreasing in the
offset and produces `0` at offset `0`. -/
theorem fallbackProgress_monotone_zero (scrollHeight innerHeight o1 o2 : ℚ)
    (hgeom : innerHeight < scrollHeight) (h0 : 0 ≤ o1) (h12 : o1 ≤ o2) :
    fallbackProgress o1 scrollHeight innerHeight ≤
      fallbackProgress o2 scrollHeight innerHeight ∧
    fallbackProgress 0 scrollHeight innerHeight = 0 := by
  have hd : (0 : ℚ) < scrollHeight - innerHeight := by linarith
  constructor
  · unfold fallbackProgress fallbackDocHeight
    have hdiv : o1 / (scrollHeight - innerHeight) ≤ o2 / (scrollHeight - innerHeight) :=
      (div_le_div_iff_of_pos_right hd).mpr h12
    exact mul_le_mul_of_nonneg_right hdiv (by norm_num)
  · simp [fallbackProgress, fallbackDocHeight]

/-- C9, witness at `scrollHeight = 900`, `innerHeight = 100`,
`o1 = 40`, `o2 = 400`. -/
theorem fallbackProgress_monotone_zero_witness :
    fallbackProgress 40 900 100 ≤ fallbackProgress 400 900 100 ∧
    fallbackProgress 0 900 100 = 0 :=
  fallbackProgress_monotone_zero 900 100 40 400 (by norm_num) (by norm_num) (by norm_num)

/-- C7: for every non-negative distance and positive viewport height,
the optimized-profile scale lies in `[0.85, 1]` and the wide-profile
scale lies in `[0.8, 1]`; both equal exactly `1` at distance `0`. -/
theorem scale_bounds (innerHeight distance : ℚ)
    (hih : 0 < innerHeight) (hd : 0 ≤ distance) :
    (85 / 100 ≤ computeScaleOpt innerHeight distance ∧
      computeScaleOpt innerHeight distance ≤ 1 ∧
      (distance = 0 → computeScaleOpt innerHeight distance = 1)) ∧
    (8 / 10 ≤ computeScaleWide innerHeight distance ∧
      computeScaleWide innerHeight distance ≤ 1 ∧
      (distance = 0 → computeScaleWide innerHeight distance = 1)) := by
  have hmOpt : (0 : ℚ) < innerHeight * (8 / 10) := by positivity
  have hnOpt0 : 0 ≤ min (distance / (innerHeight * (8 / 10))) 1 :=
    le_min (div_nonneg hd hmOpt.le) zero_le_one
  have hnOpt1 : min (distance / (innerHeight * (8 / 10))) 1 ≤ 1 := min_le_right _ _
  have hnWide0 : 0 ≤ min (distance / innerHeight) 1 :=
    le_min (div_nonneg hd hih.le) zero_le_one
  have hnWide1 : min (distance / innerHeight) 1 ≤ 1 := min_le_right _ _
  refine ⟨⟨le_max_left _ _, ?_, ?_⟩, ⟨le_max_right _ _, ?_, ?_⟩⟩
  · exact max_le (by norm_num) (by nlinarith)
  · intro h0
    subst h0
    norm_num [computeScaleOpt]
  · exact max_le (by nlinarith) (by norm_num)
  · intro h0
    subst h0
    norm_num [computeScaleWide]

/-- C7, witness at `innerHeight = 800`, `distance = 200` and the
distance-zero cases at `distance = 0`. -/
theorem scale_bounds_witness :
    (85 / 100 ≤ computeScaleOpt 800 200 ∧ computeScaleOpt 800 200 ≤ 1 ∧
      (200 = (0 : ℚ) → computeScaleOpt 800 200 = 1)) ∧
    (8 / 10 ≤ computeScaleWide 800 200 ∧ computeScaleWide 800 200 ≤ 1 ∧
      (200 = (0 : ℚ) → computeScaleWide 800 200 = 1)) :=
  scale_bounds 800 200 (by norm_num) (by norm_num)

/-- C8: in the manual smooth-scroll fallback, once the elapsed time
reaches the (positive) duration, the interpolated position equals the
target exactly — `easeInOutCubic 1 = 1` — and the per-frame loop stops
scheduling further frames. -/
theorem animateScroll_settles_at_target (startPosition targetPosition duration t : ℚ)
    (hdur : 0 < duration) (ht : duration ≤ t) :
    easeInOutCubic 1 = 1 ∧
    animPosition startPosition targetPosition duration t = targetPosition ∧
    animSchedulesNext duration t = false := by
  have hease : easeInOutCubic 1 = 1 := by norm_num [easeInOutCubic]
  have hprog : animProgress duration t = 1 := by
    unfold animProgress
    have : (1 : ℚ) ≤ t / duration := (one_le_div hdur).mpr ht
    exact min_eq_right this
  refine ⟨hease, ?_, ?_⟩
  · unfold animPosition
    rw [hprog, hease]
    ring
  · simp [animSchedulesNext, hprog]

/-- C8, witness at `startPosition = 100`, `targetPosition = 2900`,
`duration = 800`, `t = 800`. -/
theorem animateScroll_settles_at_target_witness :
    easeInOutCubic 1 = 1 ∧
    animPosition 100 2900 800 800 = 2900 ∧
    animSchedulesNext 800 800 = false :=
  animateScroll_settles_at_target 100 2900 800 800 (by norm_num) (by norm_num)

/-- C10: in the header variant, `headerVisible` starts `true`; a
processed scroll sample hides the header exactly when the new offset is
strictly above both the previous processed offset and 80, shows it when
the new offset is strictly below the previous one or at most 80, leaves
it unchanged otherwise, and records the sample as the new previous
offset. -/
theorem header_autohide (s : State001) (o scrollHeight innerHeight : ℚ) :
    headerInit.headerVisible = true ∧
    (handleScroll001 s o scrollHeight innerHeight).lastScrollY = o ∧
    (o > s.lastScrollY ∧ o > 80 →
      (handleScroll001 s o scrollHeight innerHeight).headerVisible = false) ∧
    (o < s.lastScrollY ∨ o ≤ 80 →
      (handleScroll001 s o scrollHeight innerHeight).headerVisible = true) ∧
    (¬(o > s.lastScrollY ∧ o > 80) ∧ ¬(o < s.lastScrollY ∨ o ≤ 80) →
      (handleScroll001 s o scrollHeight innerHeight).headerVisible = s.headerVisible) := by
  refine ⟨rfl, rfl, ?_, ?_, ?_⟩
  · intro h
    simp only [handleScroll001]
    rw [if_pos h]
  · intro h
    have h1 : ¬(o > s.lastScrollY ∧ o > 80) := by
      rintro ⟨ha, hb⟩
      rcases h with h | h
      · exact lt_asymm h ha
      · exact h.not_lt hb
    simp only [handleScroll001]
    rw [if_neg h1, if_pos h]
  · rintro ⟨h1, h2⟩
    simp only [handleScroll001]
    rw [if_neg h1, if_neg h2]

/-- C10, witness: from the initial state a sample at offset 100 (above
the previous offset 0 and above 80) hides the header, and a following
sample at offset 60 shows it again. -/
theorem header_autohide_witness :
    (handleScroll001 headerInit 100 2000 800).headerVisible = false ∧
    (handleScroll001 (handleScroll001 headerInit 100 2000 800) 60 2000 800).headerVisible
      = true := by
  constructor
  · exact (header_autohide headerInit 100 2000 800).2.2.1 (by norm_num [headerInit])
  · exact (header_autohide (handleScroll001 headerInit 100 2000 800) 60 2000 800).2.2.2.1
      (Or.inr (by norm_num))

/-- C3: while a navigation is in flight (`isNavigating = true`), a
further `scrollToImage` call returns the state unchanged: no scroll is
started, the scroll target is untouched, and `currentImageIndex` is
unaffected. -/
theorem nav_single_flight (g : Geometry) (s : Nav000State) (i : ℤ)
    (h : s.isNavigating = true) :
    scrollToImage g s i = s := by
  simp [scrollToImage, h]

/-- C3, witness: a second request for index 5 while navigating leaves
the state untouched. -/
theorem nav_single_flight_witness :
    scrollToImage sampleGeometry ⟨3, true, some 2900⟩ 5 = ⟨3, true, some 2900⟩ :=
  nav_single_flight sampleGeometry ⟨3, true, some 2900⟩ 5 rfl

/-- C4: a navigation request whose target panel is not resolvable (the
`data-index` query fails, which happens exactly for out-of-range
indices) is silently rejected: the call returns with
`isNavigating = false` and the whole navigation state unchanged. -/
theorem nav_reject_unlocks (g : Geometry) (s : Nav000State) (i : ℤ)
    (hnav : s.isNavigating = false) (hres : resolveIndex i = none) :
    (scrollToImage g s i).isNavigating = false ∧
    scrollToImage g s i = s := by
  have hs : scrollToImage g s i = s := by
    simp only [scrollToImage, hnav, hres, Bool.false_eq_true, if_false]
    rw [← hnav]
  exact ⟨by rw [hs, hnav], hs⟩

/-- C4, witness: requesting index 29 (out of the 0..28 range) from an
idle state leaves the state unchanged and the lock clear. -/
theorem nav_reject_unlocks_witness :
    (scrollToImage sampleGeometry ⟨3, false, none⟩ 29).isNavigating = false ∧
    scrollToImage sampleGeometry ⟨3, false, none⟩ 29 = ⟨3, false, none⟩ :=
  nav_reject_unlocks sampleGeometry ⟨3, false, none⟩ 29 rfl (by decide)

/-- C1: from an idle state, `scrollToImage i` for a valid `i` commands
the scroller to the offset that centers panel `i` in the viewport
(whenever that offset is not clamped at the document top), so on
eventual completion — the 50%-threshold observer fires for the centered
target panel and the safety timeout clears the lock —
`currentImageIndex = i` and `isNavigating = false`; for `i` outside
`[0, 28]` the call changes neither `currentImageIndex` nor the scroll
target. -/
theorem requestNavigate_correct (g : Geometry) (s : Nav000State) (i : ℤ)
    (hnav : s.isNavigating = false) :
    (0 ≤ i ∧ i < (numImages : ℤ) →
      (scrollToImage g s i).scrollTarget = some (targetPosition g i.toNat) ∧
      (0 ≤ centerPosition g i.toNat →
        viewportCenter g (targetPosition g i.toNat) = elementCenter g i.toNat) ∧
      (runNavToCompletion (scrollToImage g s i) i.toNat).currentImageIndex = i.toNat ∧
      (runNavToCompletion (scrollToImage g s i) i.toNat).isNavigating = false) ∧
    (¬(0 ≤ i ∧ i < (numImages : ℤ)) →
      (scrollToImage g s i).currentImageIndex = s.currentImageIndex ∧
      (scrollToImage g s i).scrollTarget = s.scrollTarget) := by
  constructor
  · intro hi
    have hres : resolveIndex i = some i.toNat := by
      unfold resolveIndex
      rw [if_pos hi]
    refine ⟨?_, ?_, rfl, rfl⟩
    · simp only [scrollToImage, hnav, hres, Bool.false_eq_true, if_false]
    · intro hcp
      unfold viewportCenter targetPosition elementCenter
      rw [max_eq_right hcp]
      unfold centerPosition
      ring
  · intro hi
    have hres : resolveIndex i = none := by
      unfold resolveIndex
      rw [if_neg hi]
    simp only [scrollToImage, hnav, hres, Bool.false_eq_true, if_false]
    constructor <;> first | rfl | trivial

/-- C1, witness: from the idle initial state, navigating to index 3 in
the sample geometry targets offset 2900 (which centers panel 3), and on
completion the current index is 3 with the lock clear; index 29 is
rejected without touching index or target. -/
theorem requestNavigate_correct_witness :
    ((scrollToImage sampleGeometry ⟨0, false, none⟩ 3).scrollTarget =
      some (targetPosition sampleGeometry 3) ∧
     (runNavToCompletion (scrollToImage sampleGeometry ⟨0, false, none⟩ 3) 3).currentImageIndex
       = 3 ∧
     (runNavToCompletion (scrollToImage sampleGeometry ⟨0, false, none⟩ 3) 3).isNavigating
       = false) ∧
    ((scrollToImage sampleGeometry ⟨0, false, none⟩ (-1)).currentImageIndex = 0 ∧
     (scrollToImage sampleGeometry ⟨0, false, none⟩ (-1)).scrollTarget = none) := by
  constructor
  · obtain ⟨h1, _, h3, h4⟩ :=
      (requestNavigate_correct sampleGeometry ⟨0, false, none⟩ 3 rfl).1 (by decide)
    exact ⟨h1, h3, h4⟩
  · exact (requestNavigate_correct sampleGeometry ⟨0, false, none⟩ (-1) rfl).2 (by decide)

/-- Panel lookup through the deferred reconciliation scan: position `j`
of `promoteAll ns k l` is position `j` of `l` with `promotePending` at
running index `k + j` applied. -/
theorem promoteAll_getElem? (ns : Finset ℕ) (k : ℕ) (l : List StoryItem) (j : ℕ) :
    (promoteAll ns k l)[j]? = (l[j]?).map (promotePending ns (k + j)) := by
  induction l generalizing k j with
  | nil => simp [promoteAll]
  | cons a l ih =>
    cases j with
    | zero => simp [promoteAll]
    | succ j =>
      have hk : k + 1 + j = k + (j + 1) := by omega
      simp [promoteAll, ih, hk]

/-- `promotePending` is idempotent on each item. -/
theorem promotePending_idem (ns : Finset ℕ) (i : ℕ) (it : StoryItem) :
    promotePending ns i (promotePending ns i it) = promotePending ns i it := by
  by_cases h : it.pendingVisible = true ∧ imageAt i ∈ ns
  · simp [promotePending, h]
  · simp [promotePending, h]

/-- The deferred reconciliation scan is idempotent. -/
theorem promoteAll_idem (ns : Finset ℕ) (k : ℕ) (l : List StoryItem) :
    promoteAll ns k (promoteAll ns k l) = promoteAll ns k l := by
  induction l generalizing k with
  | nil => rfl
  | cons a l ih => simp [promoteAll, promotePending_idem, ih]

/-- `handleImageLoad` is idempotent: a duplicate load signal for the
same image leaves the whole component state unchanged. -/
theorem handleImageLoad_idem (s : AppState) (n : ℕ) :
    handleImageLoad (handleImageLoad s n) n = handleImageLoad s n := by
  simp [handleImageLoad, Finset.insert_idem, promoteAll_idem]

/-- C5: under the load-gated policy, a threshold crossing reveals the
panel at once when its image is loaded and otherwise marks it pending;
the image-load handler for that panel's image then reveals it and clears
the pending mark; and running the image-load handler twice with the same
image number equals running it once. -/
theorem loadGated_reveal (s : AppState) (idx : ℕ) (it : StoryItem)
    (hit : s.items[idx]? = some it) :
    (imageAt idx ∈ s.loadedImages → visibleAt (intersectStep s idx) idx = true) ∧
    (imageAt idx ∉ s.loadedImages → pendingAt (intersectStep s idx) idx = true) ∧
    (it.pendingVisible = true →
      visibleAt (handleImageLoad s (imageAt idx)) idx = true ∧
      pendingAt (handleImageLoad s (imageAt idx)) idx = false) ∧
    (∀ (t : AppState) (n : ℕ),
      handleImageLoad (handleImageLoad t n) n = handleImageLoad t n) := by
  have hlen : idx < s.items.length := by
    by_contra hge
    rw [List.getElem?_eq_none (le_of_not_lt hge)] at hit
    exact Option.noConfusion hit
  refine ⟨?_, ?_, ?_, fun t n => handleImageLoad_idem t n⟩
  · intro hmem
    have hstep : intersectStep s idx =
        { s with items := s.items.set idx { it with visible := true } } := by
      simp only [intersectStep, hit]
      rw [if_pos hmem]
    rw [hstep]
    unfold visibleAt
    simp [List.getElem?_set_eq_of_lt _ hlen]
  · intro hmem
    have hstep : intersectStep s idx =
        { s with items := s.items.set idx { it with pendingVisible := true } } := by
      simp only [intersectStep, hit]
      rw [if_neg hmem]
    rw [hstep]
    unfold pendingAt
    simp [List.getElem?_set_eq_of_lt _ hlen]
  · intro hp
    have hmem : imageAt idx ∈ insert (imageAt idx) s.loadedImages :=
      Finset.mem_insert_self _ _
    unfold handleImageLoad visibleAt pendingAt
    simp only [promoteAll_getElem?, Nat.zero_add, hit, Option.map_some]
    simp [promotePending, hp, hmem]

/-- C5, witness: in a one-panel gallery whose image is not yet loaded,
the threshold crossing marks the panel pending; loading image 1 then
reveals it and clears the mark; and a duplicate load signal is a no-op. -/
theorem loadGated_reveal_witness :
    pendingAt (intersectStep ⟨∅, 0, [⟨false, false⟩]⟩ 0) 0 = true ∧
    (visibleAt (handleImageLoad ⟨∅, 0, [⟨false, true⟩]⟩ (imageAt 0)) 0 = true ∧
      pendingAt (handleImageLoad ⟨∅, 0, [⟨false, true⟩]⟩ (imageAt 0)) 0 = false) ∧
    handleImageLoad (handleImageLoad ⟨∅, 0, [⟨false, true⟩]⟩ 1) 1 =
      handleImageLoad ⟨∅, 0, [⟨false, true⟩]⟩ 1 := by
  refine ⟨?_, ?_, ?_⟩
  · exact (loadGated_reveal ⟨∅, 0, [⟨false, false⟩]⟩ 0 ⟨false, false⟩ rfl).2.1 (by decide)
  · exact (loadGated_reveal ⟨∅, 0, [⟨false, true⟩]⟩ 0 ⟨false, true⟩ rfl).2.2.1 rfl
  · exact (loadGated_reveal ⟨∅, 0, [⟨false, true⟩]⟩ 0 ⟨false, true⟩ rfl).2.2.2 _ 1

/-- `promotePending` never retracts the `visible` class. -/
theorem promotePending_visible_mono (ns : Finset ℕ) (i : ℕ) (it : StoryItem)
    (h : it.visible = true) : (promotePending ns i it).visible = true := by
  unfold promotePending
  split_ifs
  · rfl
  · exact h

/-- Setting position `j` to an item that keeps visibility preserves the
`visible` class at every position of the load-gated variant. -/
theorem visibleAt_set_mono (s : AppState) (j idx : ℕ) (it a : StoryItem)
    (hj : s.items[j]? = some it) (hva : it.visible = true → a.visible = true)
    (h : visibleAt s idx = true) :
    visibleAt { s with items := s.items.set j a } idx = true := by
  unfold visibleAt at h ⊢
  by_cases hij : j = idx
  · subst hij
    simp only [List.getElem?_set_self', hj] at *
    simp at h ⊢
    exact hva h
  · simp only [List.getElem?_set_ne hij]
    exact h

/-- No event of the load-gated variant removes the `visible` class. -/
theorem appStep_visible_mono (s : AppState) (e : AppEvent) (idx : ℕ)
    (h : visibleAt s idx = true) : visibleAt (appStep s e) idx = true := by
  cases e with
  | scroll st sh ih => exact h
  | observeAttach =>
    show visibleAt (observeAttachStep s) idx = true
    cases hj : s.items[0]? with
    | none =>
      have hstep : observeAttachStep s = s := by simp only [observeAttachStep, hj]
      rw [hstep]; exact h
    | some it0 =>
      by_cases hc : imageAt 0 ∈ s.loadedImages
      · have hstep : observeAttachStep s =
            { s with items := s.items.set 0 { it0 with visible := true } } := by
          simp only [observeAttachStep, hj]
          rw [if_pos hc]
        rw [hstep]
        exact visibleAt_set_mono s 0 idx it0 _ hj (fun _ => rfl) h
      · have hstep : observeAttachStep s = s := by
          simp only [observeAttachStep, hj]
          rw [if_neg hc]
        rw [hstep]; exact h
  | intersect j =>
    show visibleAt (intersectStep s j) idx = true
    cases hj : s.items[j]? with
    | none =>
      have hstep : intersectStep s j = s := by simp only [intersectStep, hj]
      rw [hstep]; exact h
    | some itj =>
      by_cases hc : imageAt j ∈ s.loadedImages
      · have hstep : intersectStep s j =
            { s with items := s.items.set j { itj with visible := true } } := by
          simp only [intersectStep, hj]
          rw [if_pos hc]
        rw [hstep]
        exact visibleAt_set_mono s j idx itj _ hj (fun _ => rfl) h
      · have hstep : intersectStep s j =
            { s with items := s.items.set j { itj with pendingVisible := true } } := by
          simp only [intersectStep, hj]
          rw [if_neg hc]
        rw [hstep]
        exact visibleAt_set_mono s j idx itj _ hj (fun hv => hv) h
  | imageLoad n =>
    show visibleAt (handleImageLoad s n) idx = true
    unfold visibleAt at h
    unfold handleImageLoad visibleAt
    simp only [promoteAll_getElem?, Nat.zero_add]
    cases hit : s.items[idx]? with
    | none => rw [hit] at h; exact absurd h (by simp)
    | some it =>
      rw [hit] at h
      simp only [Option.map_some', Option.getD_some] at h ⊢
      exact promotePending_visible_mono _ _ _ h

/-- Event sequences of the load-gated variant preserve the `visible`
class. -/
theorem appRun_visible_mono : ∀ (es : List AppEvent) (s : AppState) (idx : ℕ),
    visibleAt s idx = true → visibleAt (appRun s es) idx = true
  | [], _, _, h => h
  | e :: es, s, idx, h =>
      appRun_visible_mono es (appStep s e) idx (appStep_visible_mono s e idx h)

/-- No event of the header variant removes the `visible` class. -/
theorem step001_visible_mono (s : State001) (e : Event001) (idx : ℕ)
    (h : visibleAt001 s idx = true) : visibleAt001 (step001 s e) idx = true := by
  cases e with
  | scroll st sh ih => exact h
  | imageLoad n => exact h
  | intersect j =>
    show visibleAt001 (intersect001 s j) idx = true
    cases hj : s.items[j]? with
    | none =>
      have hstep : intersect001 s j = s := by simp only [intersect001, hj]
      rw [hstep]; exact h
    | some itj =>
      by_cases hc : itj.observed = true
      · have hstep : intersect001 s j =
            { s with items := s.items.set j { visible := true, observed := false } } := by
          simp only [intersect001, hj]
          rw [if_pos hc]
        rw [hstep]
        unfold visibleAt001 at h ⊢
        by_cases hij : j = idx
        · subst hij
          simp only [List.getElem?_set_self', hj]
          simp
        · simp only [List.getElem?_set_ne hij]
          exact h
      · have hstep : intersect001 s j = s := by
          simp only [intersect001, hj]
          rw [if_neg hc]
        rw [hstep]; exact h

/-- Event sequences of the header variant preserve the `visible`
class. -/
theorem run001_visible_mono : ∀ (es : List Event001) (s : State001) (idx : ℕ),
    visibleAt001 s idx = true → visibleAt001 (run001 s es) idx = true
  | [], _, _, h => h
  | e :: es, s, idx, h =>
      run001_visible_mono es (step001 s e) idx (step001_visible_mono s e idx h)

/-- C6: in both variants that reveal panels (the load-gated variant and
the header variant), once a panel carries the `visible` class, no
subsequent sequence of scroll samples, intersection signals or
image-load events removes it. -/
theorem revealed_monotonic :
    (∀ (s : AppState) (es : List AppEvent) (idx : ℕ),
      visibleAt s idx = true → visibleAt (appRun s es) idx = true) ∧
    (∀ (s : State001) (es : List Event001) (idx : ℕ),
      visibleAt001 s idx = true → visibleAt001 (run001 s es) idx = true) :=
  ⟨fun s es idx h => appRun_visible_mono es s idx h,
   fun s es idx h => run001_visible_mono es s idx h⟩

/-- C6, witness: a revealed single-panel gallery stays revealed across a
load signal and an intersection signal, and a revealed panel of the
header variant stays revealed across a scroll sample. -/
theorem revealed_monotonic_witness :
    visibleAt (appRun ⟨∅, 0, [⟨true, false⟩]⟩ [AppEvent.imageLoad 1, AppEvent.intersect 0]) 0
      = true ∧
    visibleAt001
      (run001 { headerInit with items := [⟨true, false⟩] } [Event001.scroll 100 2000 800]) 0
      = true :=
  ⟨revealed_monotonic.1 ⟨∅, 0, [⟨true, false⟩]⟩ [AppEvent.imageLoad 1, AppEvent.intersect 0] 0
      rfl,
   revealed_monotonic.2 { headerInit with items := [⟨true, false⟩] }
      [Event001.scroll 100 2000 800] 0 rfl⟩

end NmixxLore
